import Mathlib

/-!
Verification of the niviz-server relational data layer.

The row types below are shallow embeddings of the SQLAlchemy model classes in
`src/niviz_server/db/models.py`: each structure field corresponds to a column,
boolean column defaults become structure field defaults, `UniqueConstraint`
declarations become explicit checks in the operations, and
`ForeignKey(..., ondelete='CASCADE')` declarations become the filters applied
by the delete operations.  Tables are lists of rows; integer keys are `Nat`.

The data-layer operations (`resolve_permissions`, `grant`, `attach_dataset`,
`create_entity`, `attach_image`, `tag_entity`, `add_filter`, `working_set`,
`delete`) are declared only in the spec's external-interface section, not in
the source tree; they are modelled from the spec on top of the source schema,
as marked in their doc comments.
-/

/-- Embeds the `users` table (models.py `User`): `is_active` and `is_admin`
default to false per the source `Column(..., default=False)` declarations. -/
structure UserRow where
  id : Nat
  first_name : String := ""
  last_name : String := ""
  username : String := ""
  email : String := ""
  picture : String := ""
  is_active : Bool := false
  is_admin : Bool := false
deriving DecidableEq, Repr

/-- Embeds the `projects` table (models.py `Project`); `name` is non-null. -/
structure ProjectRow where
  id : Nat
  name : String
  created_at : Nat := 0
  updated_at : Nat := 0
deriving DecidableEq, Repr

/-- Embeds the `datasets` table (models.py `Dataset`). -/
structure DatasetRow where
  id : Nat
  name : String := ""
  created_at : Nat := 0
  updated_at : Nat := 0
deriving DecidableEq, Repr

/-- Embeds the `permissions_projectuser` table (models.py
`ProjectUserPermissions`): capability defaults transcribed from the source
columns (`can_view` defaults true, every other flag false, lines 73-77). -/
structure PUPRow where
  id : Nat
  user_id : Nat
  project_id : Nat
  can_view : Bool := true
  can_share : Bool := false
  can_modify : Bool := false
  can_delete : Bool := false
  can_admin : Bool := false
deriving DecidableEq, Repr

/-- Embeds the `permissions_datasetuser` table (models.py
`DatasetUserPermissions`): defaults transcribed from the source columns
(`can_view` defaults true, every other flag including `can_create_project`
false, lines 115-120). -/
structure DUPRow where
  id : Nat
  dataset_id : Nat
  user_id : Nat
  can_create_project : Bool := false
  can_view : Bool := true
  can_share : Bool := false
  can_modify : Bool := false
  can_delete : Bool := false
  can_admin : Bool := false
deriving DecidableEq, Repr

/-- Embeds the `project_datasets` table (models.py `ProjectDataset`). -/
structure PDRow where
  id : Nat
  project_id : Nat
  dataset_id : Nat
deriving DecidableEq, Repr

/-- Embeds the `entities` table (models.py `Entity`): `dataset_id` is a
non-null FK to `datasets.id` with `ondelete='CASCADE'`. -/
structure EntityRow where
  id : Nat
  dataset_id : Nat
  updated_at : Nat := 0
deriving DecidableEq, Repr

/-- Embeds the `metadata` table (models.py `Metadata`): a (key, value) pair,
`key_id` a non-null FK to `metadata_keys.id`. -/
structure MetadataRow where
  id : Nat
  key_id : Nat
  value : String
deriving DecidableEq, Repr

/-- Embeds the `metadata_keys` table (models.py `MetadataKey`): `name` is
unique (`unique_key_names`). -/
structure MetadataKeyRow where
  id : Nat
  name : String
deriving DecidableEq, Repr

/-- Embeds the `entity_metadata` table (models.py `EntityMetadata`):
unique on (entity_id, metadata_id) (`unique_entity_metadata`), both FKs
cascade on delete. -/
structure EMRow where
  id : Nat
  entity_id : Nat
  metadata_id : Nat
deriving DecidableEq, Repr

/-- Modelled from the spec: the `images` table. The source `Image` class
(models.py lines 222-235) declares only a `path` column and no id / primary
key at all, even though `EntityImage.image_id` declares
`ForeignKey('images.id')`; following the spec (and that FK's evident intent)
an `id` field is included here.  `path` is unique (`unique_image_path`). -/
structure ImageRow where
  id : Nat
  path : String
deriving DecidableEq, Repr

/-- Embeds the `entity_images` table (models.py `EntityImage`): unique on
(entity_id, image_id) (`unique_entity_image`), both FKs cascade on delete.
Faithful to the source, this row type carries no `id` column of its own. -/
structure EIRow where
  entity_id : Nat
  image_id : Nat
deriving DecidableEq, Repr

/-- Embeds the `metadata_filters` table (models.py `MetadataFilter`):
carries no `UniqueConstraint`; `is_exclusion` is non-null with default
false. -/
structure MFRow where
  id : Nat
  project_dataset_id : Nat
  metadata_id : Nat
  is_exclusion : Bool := false
deriving DecidableEq, Repr

/-- The `Image` model exactly as declared in the source (models.py lines
222-235): only a `path` column, no id and no primary key.  Kept verbatim,
separately from `ImageRow`, to settle the identifier claim against the
literal source. -/
structure ImageRowSrc where
  path : String
deriving DecidableEq, Repr

/-- The `EntityImage` model exactly as declared in the source (models.py
lines 238-257): only `entity_id` and `image_id` columns, no id column. -/
structure EntityImageRowSrc where
  entity_id : Nat
  image_id : Nat
deriving DecidableEq, Repr

/-- The full relational state: one list of rows per table of the schema. -/
structure DB where
  users : List UserRow := []
  projects : List ProjectRow := []
  datasets : List DatasetRow := []
  projectPerms : List PUPRow := []
  datasetPerms : List DUPRow := []
  projectDatasets : List PDRow := []
  entities : List EntityRow := []
  metadataRows : List MetadataRow := []
  metadataKeys : List MetadataKeyRow := []
  entityMetadata : List EMRow := []
  images : List ImageRow := []
  entityImages : List EIRow := []
  metadataFilters : List MFRow := []
deriving DecidableEq, Repr

/-- The empty database: every table empty. -/
def emptyDB : DB := {}

/-- Errors of the data layer, from the spec's error taxonomy. -/
inductive DBError where
  | NotFound
  | DuplicateGrant
  | AlreadyAttached
  | DuplicateTag
deriving DecidableEq, Repr

/-- Effective capability set on a Project resource. -/
structure ProjectCaps where
  can_view : Bool
  can_share : Bool
  can_modify : Bool
  can_delete : Bool
  can_admin : Bool
deriving DecidableEq, Repr

/-- The empty project capability set: no access. -/
def ProjectCaps.noAccess : ProjectCaps := ⟨false, false, false, false, false⟩

/-- The full project capability set. -/
def ProjectCaps.full : ProjectCaps := ⟨true, true, true, true, true⟩

/-- Effective capability set on a Dataset resource (adds create_project). -/
structure DatasetCaps where
  can_create_project : Bool
  can_view : Bool
  can_share : Bool
  can_modify : Bool
  can_delete : Bool
  can_admin : Bool
deriving DecidableEq, Repr

/-- The empty dataset capability set: no access. -/
def DatasetCaps.noAccess : DatasetCaps := ⟨false, false, false, false, false, false⟩

/-- The full dataset capability set. -/
def DatasetCaps.full : DatasetCaps := ⟨true, true, true, true, true, true⟩

/-- Modelled from the spec: the project branch of
`resolve_permissions(user_id, resource_type, resource_id)`, which is not in
the source tree.  If `user.is_admin` all capabilities are granted
unconditionally; otherwise the unique grant row for (user_id, project_id) is
looked up in `permissions_projectuser` and absence of a row (or of the user)
means no capabilities (fail-closed default-deny). -/
def resolveProjectPermissions (db : DB) (uid pid : Nat) : ProjectCaps :=
  match db.users.find? (fun u => u.id == uid) with
  | none => ProjectCaps.noAccess
  | some u =>
    if u.is_admin then ProjectCaps.full
    else
      match db.projectPerms.find? (fun g => g.user_id == uid && g.project_id == pid) with
      | none => ProjectCaps.noAccess
      | some g => ⟨g.can_view, g.can_share, g.can_modify, g.can_delete, g.can_admin⟩

/-- Modelled from the spec: the dataset branch of `resolve_permissions`
(not in the source tree), over `permissions_datasetuser`; same admin
override and fail-closed rule as the project branch. -/
def resolveDatasetPermissions (db : DB) (uid did : Nat) : DatasetCaps :=
  match db.users.find? (fun u => u.id == uid) with
  | none => DatasetCaps.noAccess
  | some u =>
    if u.is_admin then DatasetCaps.full
    else
      match db.datasetPerms.find? (fun g => g.user_id == uid && g.dataset_id == did) with
      | none => DatasetCaps.noAccess
      | some g =>
        ⟨g.can_create_project, g.can_view, g.can_share, g.can_modify, g.can_delete, g.can_admin⟩

/-- Next monotonically-assigned surface key: one more than the largest key
in use. -/
def freshId (l : List Nat) : Nat := l.foldr max 0 + 1

/-- Modelled from the spec: `grant(user_id, 'project', project_id,
capabilities)` (not in the source tree).  Parents are checked (`NotFound`),
the `unique_project_user` constraint from the source is checked
(`DuplicateGrant`, never a silent no-op), and on success a row is inserted;
when no capabilities are specified the row takes the source column defaults
(`PUPRow` field defaults). -/
def grantProject (db : DB) (uid pid : Nat) (caps : Option ProjectCaps) :
    Except DBError DB :=
  if !(db.users.any (fun u => u.id == uid)) then .error .NotFound
  else if !(db.projects.any (fun x => x.id == pid)) then .error .NotFound
  else if db.projectPerms.any (fun g => g.user_id == uid && g.project_id == pid) then
    .error .DuplicateGrant
  else
    let base : PUPRow :=
      { id := freshId (db.projectPerms.map PUPRow.id), user_id := uid, project_id := pid }
    let g : PUPRow :=
      match caps with
      | none => base
      | some c =>
        { base with can_view := c.can_view, can_share := c.can_share,
                    can_modify := c.can_modify, can_delete := c.can_delete,
                    can_admin := c.can_admin }
    .ok { db with projectPerms := g :: db.projectPerms }

/-- Modelled from the spec: `grant(user_id, 'dataset', dataset_id,
capabilities)` (not in the source tree), over the `unique_dataset_user`
constraint, with the source column defaults when capabilities are
unspecified. -/
def grantDataset (db : DB) (uid did : Nat) (caps : Option DatasetCaps) :
    Except DBError DB :=
  if !(db.users.any (fun u => u.id == uid)) then .error .NotFound
  else if !(db.datasets.any (fun x => x.id == did)) then .error .NotFound
  else if db.datasetPerms.any (fun g => g.user_id == uid && g.dataset_id == did) then
    .error .DuplicateGrant
  else
    let base : DUPRow :=
      { id := freshId (db.datasetPerms.map DUPRow.id), dataset_id := did, user_id := uid }
    let g : DUPRow :=
      match caps with
      | none => base
      | some c =>
        { base with can_create_project := c.can_create_project,
                    can_view := c.can_view, can_share := c.can_share,
                    can_modify := c.can_modify, can_delete := c.can_delete,
                    can_admin := c.can_admin }
    .ok { db with datasetPerms := g :: db.datasetPerms }

/-- Modelled from the spec: `attach_dataset(project_id, dataset_id)` (not in
the source tree), over the `unique_project_dataset` constraint. -/
def attachDataset (db : DB) (pid did : Nat) : Except DBError DB :=
  if !(db.projects.any (fun x => x.id == pid)) then .error .NotFound
  else if !(db.datasets.any (fun x => x.id == did)) then .error .NotFound
  else if db.projectDatasets.any (fun pd => pd.project_id == pid && pd.dataset_id == did) then
    .error .AlreadyAttached
  else
    .ok { db with projectDatasets :=
      { id := freshId (db.projectDatasets.map PDRow.id),
        project_id := pid, dataset_id := did } :: db.projectDatasets }

/-- Modelled from the spec: detaching a dataset from a project removes only
the join row; `MetadataFilter` rows scoped to that pairing go with it per the
source `ForeignKey('project_datasets.id', ondelete='CASCADE')`. -/
def detachDataset (db : DB) (pid did : Nat) : DB :=
  { db with
    projectDatasets :=
      db.projectDatasets.filter (fun pd => !(pd.project_id == pid && pd.dataset_id == did)),
    metadataFilters :=
      db.metadataFilters.filter (fun f =>
        !((db.projectDatasets.filter
            (fun pd => pd.project_id == pid && pd.dataset_id == did)).any
          (fun pd => pd.id == f.project_dataset_id))) }

/-- Modelled from the spec: `create_entity(dataset_id)` (not in the source
tree); the entity's non-null `dataset_id` FK requires the dataset to
exist. -/
def createEntity (db : DB) (did : Nat) : Except DBError DB :=
  if !(db.datasets.any (fun x => x.id == did)) then .error .NotFound
  else
    .ok { db with entities :=
      { id := freshId (db.entities.map EntityRow.id), dataset_id := did } :: db.entities }

/-- Modelled from the spec: `attach_image(entity_id, path)` (not in the
source tree): resolve-or-create the `Image` row by its unique path, then
create the `EntityImage` join; a pair already present under the source's
`unique_entity_image` constraint is signalled, never silently dropped. -/
def attachImage (db : DB) (eid : Nat) (path : String) : Except DBError DB :=
  if !(db.entities.any (fun e => e.id == eid)) then .error .NotFound
  else
    match db.images.find? (fun img => img.path == path) with
    | some img =>
      if db.entityImages.any (fun ei => ei.entity_id == eid && ei.image_id == img.id) then
        .error .AlreadyAttached
      else .ok { db with entityImages := { entity_id := eid, image_id := img.id } :: db.entityImages }
    | none =>
      let iid := freshId (db.images.map ImageRow.id)
      .ok { db with
        images := { id := iid, path := path } :: db.images,
        entityImages := { entity_id := eid, image_id := iid } :: db.entityImages }

/-- Modelled from the spec: inserting an `EntityMetadata` join row for an
(entity_id, metadata_id) pair, the final step of `tag_entity`; a pair already
present under the source's `unique_entity_metadata` constraint fails with
`DuplicateTag` and never becomes a silent no-op. -/
def insertEntityMetadata (db : DB) (eid mid : Nat) : Except DBError DB :=
  if !(db.entities.any (fun e => e.id == eid)) then .error .NotFound
  else if !(db.metadataRows.any (fun m => m.id == mid)) then .error .NotFound
  else if db.entityMetadata.any (fun em => em.entity_id == eid && em.metadata_id == mid) then
    .error .DuplicateTag
  else
    .ok { db with entityMetadata :=
      { id := freshId (db.entityMetadata.map EMRow.id),
        entity_id := eid, metadata_id := mid } :: db.entityMetadata }

/-- Modelled from the spec: `tag_entity(entity_id, key, value)` (not in the
source tree) resolve-or-creates the `MetadataKey` by its unique name; this
is that first step. -/
def resolveKey (db : DB) (key : String) : DB × Nat :=
  match db.metadataKeys.find? (fun k => k.name == key) with
  | some k => (db, k.id)
  | none =>
    let kid := freshId (db.metadataKeys.map MetadataKeyRow.id)
    ({ db with metadataKeys := { id := kid, name := key } :: db.metadataKeys }, kid)

/-- Modelled from the spec: resolve-or-create the `Metadata` (key, value)
row by its addressable pair. -/
def resolveMetadata (db : DB) (kid : Nat) (value : String) : DB × Nat :=
  match db.metadataRows.find? (fun m => m.key_id == kid && m.value == value) with
  | some m => (db, m.id)
  | none =>
    let mid := freshId (db.metadataRows.map MetadataRow.id)
    ({ db with metadataRows :=
      { id := mid, key_id := kid, value := value } :: db.metadataRows }, mid)

/-- Modelled from the spec (continued): `tag_entity` composes the two
resolve-or-create steps with the join insertion. -/
def tagEntity (db : DB) (eid : Nat) (key value : String) : Except DBError DB :=
  if !(db.entities.any (fun e => e.id == eid)) then .error .NotFound
  else
    let kstep := resolveKey db key
    let mstep := resolveMetadata kstep.1 kstep.2 value
    insertEntityMetadata mstep.1 eid mstep.2

/-- Modelled from the spec: `add_filter(project_dataset_id, metadata_id,
is_exclusion)` (not in the source tree).  Both non-null FKs are checked; the
source `MetadataFilter` table carries no `UniqueConstraint`, so no duplicate
check is made. -/
def addFilter (db : DB) (pdid mid : Nat) (is_exclusion : Bool) : Except DBError DB :=
  if !(db.projectDatasets.any (fun pd => pd.id == pdid)) then .error .NotFound
  else if !(db.metadataRows.any (fun m => m.id == mid)) then .error .NotFound
  else
    .ok { db with metadataFilters :=
      { id := freshId (db.metadataFilters.map MFRow.id),
        project_dataset_id := pdid, metadata_id := mid,
        is_exclusion := is_exclusion } :: db.metadataFilters }

/-- Modelled from the spec: updating a user's scalar flag columns in place
(relationships are never mutated in place). -/
def updateUserFlags (db : DB) (uid : Nat) (active admin : Bool) : DB :=
  { db with users :=
    db.users.map (fun u =>
      if u.id == uid then { u with is_active := active, is_admin := admin } else u) }

/-- Modelled from the spec: `delete('user', id)`.  Cascades transcribed from
the source FKs: `permissions_projectuser.user_id` and
`permissions_datasetuser.user_id` carry `ondelete='CASCADE'`. -/
def deleteUser (db : DB) (uid : Nat) : DB :=
  { db with
    users := db.users.filter (fun u => !(u.id == uid)),
    projectPerms := db.projectPerms.filter (fun g => !(g.user_id == uid)),
    datasetPerms := db.datasetPerms.filter (fun g => !(g.user_id == uid)) }

/-- Modelled from the spec: `delete('project', id)`.  Cascades transcribed
from the source FKs: grant rows and `project_datasets` rows cascade, and
`metadata_filters` rows cascade from their deleted `project_datasets`
parent. -/
def deleteProject (db : DB) (pid : Nat) : DB :=
  { db with
    projects := db.projects.filter (fun p => !(p.id == pid)),
    projectPerms := db.projectPerms.filter (fun g => !(g.project_id == pid)),
    projectDatasets := db.projectDatasets.filter (fun pd => !(pd.project_id == pid)),
    metadataFilters := db.metadataFilters.filter (fun f =>
      !((db.projectDatasets.filter (fun pd => pd.project_id == pid)).any
        (fun pd => pd.id == f.project_dataset_id))) }

/-- Modelled from the spec: `delete('dataset', id)`.  Cascades transcribed
from the source FKs: grant rows, `project_datasets` rows (and their
`metadata_filters`), the dataset's entities, and each such entity's
`entity_images` and `entity_metadata` join rows. -/
def deleteDataset (db : DB) (did : Nat) : DB :=
  { db with
    datasets := db.datasets.filter (fun d => !(d.id == did)),
    datasetPerms := db.datasetPerms.filter (fun g => !(g.dataset_id == did)),
    projectDatasets := db.projectDatasets.filter (fun pd => !(pd.dataset_id == did)),
    metadataFilters := db.metadataFilters.filter (fun f =>
      !((db.projectDatasets.filter (fun pd => pd.dataset_id == did)).any
        (fun pd => pd.id == f.project_dataset_id))),
    entities := db.entities.filter (fun e => !(e.dataset_id == did)),
    entityImages := db.entityImages.filter (fun ei =>
      !((db.entities.filter (fun e => e.dataset_id == did)).any
        (fun e => e.id == ei.entity_id))),
    entityMetadata := db.entityMetadata.filter (fun em =>
      !((db.entities.filter (fun e => e.dataset_id == did)).any
        (fun e => e.id == em.entity_id))) }

/-- Modelled from the spec: `delete('entity', id)`.  Cascades transcribed
from the source FKs on `entity_images.entity_id` and
`entity_metadata.entity_id`. -/
def deleteEntity (db : DB) (eid : Nat) : DB :=
  { db with
    entities := db.entities.filter (fun e => !(e.id == eid)),
    entityImages := db.entityImages.filter (fun ei => !(ei.entity_id == eid)),
    entityMetadata := db.entityMetadata.filter (fun em => !(em.entity_id == eid)) }

/-- Modelled from the spec: deleting a `Metadata` row.  Cascades transcribed
from the source FKs on `entity_metadata.metadata_id` and
`metadata_filters.metadata_id`. -/
def deleteMetadata (db : DB) (mid : Nat) : DB :=
  { db with
    metadataRows := db.metadataRows.filter (fun m => !(m.id == mid)),
    entityMetadata := db.entityMetadata.filter (fun em => !(em.metadata_id == mid)),
    metadataFilters := db.metadataFilters.filter (fun f => !(f.metadata_id == mid)) }

/-- Modelled from the spec: deleting a `MetadataKey`.  Its `Metadata` rows
cascade (`metadata.key_id`), and their `entity_metadata` and
`metadata_filters` rows cascade transitively. -/
def deleteMetadataKey (db : DB) (kid : Nat) : DB :=
  { db with
    metadataKeys := db.metadataKeys.filter (fun k => !(k.id == kid)),
    metadataRows := db.metadataRows.filter (fun m => !(m.key_id == kid)),
    entityMetadata := db.entityMetadata.filter (fun em =>
      !((db.metadataRows.filter (fun m => m.key_id == kid)).any
        (fun m => m.id == em.metadata_id))),
    metadataFilters := db.metadataFilters.filter (fun f =>
      !((db.metadataRows.filter (fun m => m.key_id == kid)).any
        (fun m => m.id == f.metadata_id))) }

/-- Modelled from the spec: deleting an `Image` row (a maintenance
operation; never an automatic cascade).  `entity_images.image_id` carries
`ondelete='CASCADE'`. -/
def deleteImage (db : DB) (iid : Nat) : DB :=
  { db with
    images := db.images.filter (fun img => !(img.id == iid)),
    entityImages := db.entityImages.filter (fun ei => !(ei.image_id == iid)) }

/-- Does entity `eid` carry an `EntityMetadata` association to the exact
`Metadata` row `mid`? -/
def entityHasMetadata (db : DB) (eid mid : Nat) : Bool :=
  db.entityMetadata.any (fun em => em.entity_id == eid && em.metadata_id == mid)

/-- One filter's verdict on one entity: an inclusion filter passes iff the
association to its exact `Metadata` row exists, an exclusion filter passes
iff it does not. -/
def passesFilter (db : DB) (eid : Nat) (f : MFRow) : Bool :=
  if f.is_exclusion then !(entityHasMetadata db eid f.metadata_id)
  else entityHasMetadata db eid f.metadata_id

/-- The `metadata_filters` rows attached to one `project_datasets`
pairing. -/
def filtersFor (db : DB) (pdid : Nat) : List MFRow :=
  db.metadataFilters.filter (fun f => f.project_dataset_id == pdid)

/-- Modelled from the spec: `working_set(project_dataset_id)` (not in the
source tree): the ids of the entities of the paired dataset that pass every
attached filter, filters composing by logical AND. -/
def workingSet (db : DB) (pdid : Nat) : List Nat :=
  match db.projectDatasets.find? (fun pd => pd.id == pdid) with
  | none => []
  | some pd =>
    (((db.entities.filter (fun e => e.dataset_id == pd.dataset_id)).filter
      (fun e => (filtersFor db pdid).all (fun f => passesFilter db e.id f))).map
      EntityRow.id)

/-- Some row of `l` has `f`-projection `i` (an endpoint row with that id
exists). -/
def existsId {α : Type} (f : α → Nat) (l : List α) (i : Nat) : Prop :=
  ∃ r ∈ l, f r = i

/-- Referential integrity of the five join tables: every join row's two
endpoint rows exist in the state. -/
def wfJoins (db : DB) : Prop :=
  (∀ g ∈ db.projectPerms,
    existsId UserRow.id db.users g.user_id ∧ existsId ProjectRow.id db.projects g.project_id) ∧
  (∀ g ∈ db.datasetPerms,
    existsId UserRow.id db.users g.user_id ∧ existsId DatasetRow.id db.datasets g.dataset_id) ∧
  (∀ pd ∈ db.projectDatasets,
    existsId ProjectRow.id db.projects pd.project_id ∧
      existsId DatasetRow.id db.datasets pd.dataset_id) ∧
  (∀ ei ∈ db.entityImages,
    existsId EntityRow.id db.entities ei.entity_id ∧ existsId ImageRow.id db.images ei.image_id) ∧
  (∀ em ∈ db.entityMetadata,
    existsId EntityRow.id db.entities em.entity_id ∧
      existsId MetadataRow.id db.metadataRows em.metadata_id)

/-- Modelled from the spec: creating a user account (collaborator of the
data layer; scalar columns take the source defaults). -/
def createUser (db : DB) : DB :=
  { db with users := { id := freshId (db.users.map UserRow.id) } :: db.users }

/-- Modelled from the spec: creating a project (name is non-null). -/
def createProject (db : DB) (name : String) : DB :=
  { db with projects :=
    { id := freshId (db.projects.map ProjectRow.id), name := name } :: db.projects }

/-- Modelled from the spec: creating a dataset. -/
def createDataset (db : DB) (name : String) : DB :=
  { db with datasets :=
    { id := freshId (db.datasets.map DatasetRow.id), name := name } :: db.datasets }

/-- One step of the data layer: any of the spec's operation classes applied
to the state (error outcomes do not change the state, so only `ok` results
step). -/
inductive DBStep : DB → DB → Prop where
  | create_user (db : DB) : DBStep db (createUser db)
  | update_user_flags (db : DB) (uid : Nat) (a b : Bool) :
      DBStep db (updateUserFlags db uid a b)
  | create_project (db : DB) (name : String) : DBStep db (createProject db name)
  | create_dataset (db : DB) (name : String) : DBStep db (createDataset db name)
  | grant_project (db : DB) (uid pid : Nat) (caps : Option ProjectCaps) (db2 : DB) :
      grantProject db uid pid caps = .ok db2 → DBStep db db2
  | grant_dataset (db : DB) (uid did : Nat) (caps : Option DatasetCaps) (db2 : DB) :
      grantDataset db uid did caps = .ok db2 → DBStep db db2
  | attach_dataset (db : DB) (pid did : Nat) (db2 : DB) :
      attachDataset db pid did = .ok db2 → DBStep db db2
  | detach_dataset (db : DB) (pid did : Nat) : DBStep db (detachDataset db pid did)
  | create_entity (db : DB) (did : Nat) (db2 : DB) :
      createEntity db did = .ok db2 → DBStep db db2
  | attach_image (db : DB) (eid : Nat) (path : String) (db2 : DB) :
      attachImage db eid path = .ok db2 → DBStep db db2
  | tag_entity (db : DB) (eid : Nat) (key value : String) (db2 : DB) :
      tagEntity db eid key value = .ok db2 → DBStep db db2
  | add_filter (db : DB) (pdid mid : Nat) (x : Bool) (db2 : DB) :
      addFilter db pdid mid x = .ok db2 → DBStep db db2
  | delete_user (db : DB) (uid : Nat) : DBStep db (deleteUser db uid)
  | delete_project (db : DB) (pid : Nat) : DBStep db (deleteProject db pid)
  | delete_dataset (db : DB) (did : Nat) : DBStep db (deleteDataset db did)
  | delete_entity (db : DB) (eid : Nat) : DBStep db (deleteEntity db eid)
  | delete_metadata (db : DB) (mid : Nat) : DBStep db (deleteMetadata db mid)
  | delete_metadata_key (db : DB) (kid : Nat) : DBStep db (deleteMetadataKey db kid)
  | delete_image (db : DB) (iid : Nat) : DBStep db (deleteImage db iid)

/-- States reachable from the empty database by data-layer operations. -/
inductive DBReachable : DB → Prop where
  | empty : DBReachable emptyDB
  | step {db db2 : DB} : DBReachable db → DBStep db db2 → DBReachable db2

lemma le_foldrMax (l : List Nat) : ∀ i ∈ l, i ≤ l.foldr max 0 := by
  induction l with
  | nil => intro i h; cases h
  | cons a t ih =>
    intro i h
    rcases List.mem_cons.mp h with h | h
    · subst h; exact Nat.le_max_left _ _
    · exact le_trans (ih i h) (Nat.le_max_right _ _)

lemma lt_freshId (l : List Nat) : ∀ i ∈ l, i < freshId l := by
  intro i h
  exact Nat.lt_succ_of_le (le_foldrMax l i h)

lemma freshId_not_mem (l : List Nat) : freshId l ∉ l := by
  intro h
  exact absurd rfl (Nat.ne_of_lt (lt_freshId l _ h))

lemma existsId_cons {α : Type} (f : α → Nat) (x : α) (l : List α) (i : Nat)
    (h : existsId f l i) : existsId f (x :: l) i := by
  obtain ⟨r, hr, hf⟩ := h
  exact ⟨r, List.mem_cons_of_mem _ hr, hf⟩

lemma existsId_head {α : Type} (f : α → Nat) (x : α) (l : List α) :
    existsId f (x :: l) (f x) :=
  ⟨x, List.mem_cons_self _ _, rfl⟩

lemma existsId_filter {α : Type} (f : α → Nat) (p : α → Bool) (l : List α) (i : Nat)
    (h : existsId f l i) (hp : ∀ r ∈ l, f r = i → p r = true) :
    existsId f (l.filter p) i := by
  obtain ⟨r, hr, hf⟩ := h
  exact ⟨r, List.mem_filter.mpr ⟨hr, hp r hr hf⟩, hf⟩

lemma survivor_of_any_eq_false {α : Type} (f : α → Nat) (p : α → Bool) (l : List α) (i : Nat)
    (hany : (l.filter p).any (fun r => f r == i) = false) :
    ∀ r ∈ l, f r = i → (!(p r)) = true := by
  intro r hr hf
  cases hpr : p r with
  | false => rfl
  | true =>
    exfalso
    have hmem : r ∈ l.filter p := List.mem_filter.mpr ⟨hr, hpr⟩
    have : (l.filter p).any (fun r => f r == i) = true :=
      List.any_eq_true.mpr ⟨r, hmem, by simp [hf]⟩
    rw [this] at hany
    cases hany

lemma existsId_map_preserve {α : Type} (f : α → Nat) (g : α → α) (l : List α) (i : Nat)
    (hg : ∀ a, f (g a) = f a) (h : existsId f l i) : existsId f (l.map g) i := by
  obtain ⟨r, hr, hf⟩ := h
  exact ⟨g r, List.mem_map.mpr ⟨r, hr, rfl⟩, by rw [hg]; exact hf⟩

lemma proj_ne_freshId {α : Type} (f : α → Nat) (l : List α) :
    ∀ r ∈ l, f r ≠ freshId (l.map f) := by
  intro r hr
  exact Nat.ne_of_lt (lt_freshId (l.map f) (f r) (List.mem_map.mpr ⟨r, hr, rfl⟩))

/-- Example state: user 1 (regular), user 2 (admin, holding an all-false
grant on project 1 and dataset 1). -/
def exDB1 : DB :=
  { users := [{ id := 1 }, { id := 2, is_admin := true }],
    projects := [{ id := 1, name := "p" }],
    datasets := [{ id := 1, name := "d" }],
    projectPerms := [{ id := 1, user_id := 2, project_id := 1, can_view := false }],
    datasetPerms := [{ id := 1, dataset_id := 1, user_id := 2, can_view := false }] }

/-- C1: for every (user, resource) pair where the user has `is_admin=false`
and no grant row exists in the corresponding permission table,
`resolve_permissions` returns the empty capability set (fail-closed,
default-deny), for projects and for datasets alike. -/
theorem C1_fail_closed (db : DB) (uid pid did : Nat) (u : UserRow)
    (hu : db.users.find? (fun x => x.id == uid) = some u)
    (hadmin : u.is_admin = false) :
    ((∀ g ∈ db.projectPerms, ¬(g.user_id = uid ∧ g.project_id = pid)) →
      resolveProjectPermissions db uid pid = ProjectCaps.noAccess) ∧
    ((∀ g ∈ db.datasetPerms, ¬(g.user_id = uid ∧ g.dataset_id = did)) →
      resolveDatasetPermissions db uid did = DatasetCaps.noAccess) := by
  constructor
  · intro hg
    unfold resolveProjectPermissions
    rw [hu]
    have hnone : db.projectPerms.find? (fun g => g.user_id == uid && g.project_id == pid)
        = none := by
      rw [List.find?_eq_none]
      intro g hgm
      simpa using hg g hgm
    simp [hadmin, hnone]
  · intro hg
    unfold resolveDatasetPermissions
    rw [hu]
    have hnone : db.datasetPerms.find? (fun g => g.user_id == uid && g.dataset_id == did)
        = none := by
      rw [List.find?_eq_none]
      intro g hgm
      simpa using hg g hgm
    simp [hadmin, hnone]

/-- Witness for C1 at a concrete state: user 1 is not an admin and holds no
grants, so both resolutions are empty. -/
theorem C1_fail_closed_witness :
    resolveProjectPermissions exDB1 1 1 = ProjectCaps.noAccess ∧
    resolveDatasetPermissions exDB1 1 1 = DatasetCaps.noAccess := by
  have h := C1_fail_closed exDB1 1 1 1 { id := 1 } (by decide) (by decide)
  exact ⟨h.1 (by decide), h.2 (by decide)⟩

/-- C2: a user with `is_admin=true` receives the full capability set on
every resource, regardless of the presence or contents of any grant row. -/
theorem C2_admin_override (db : DB) (uid pid did : Nat) (u : UserRow)
    (hu : db.users.find? (fun x => x.id == uid) = some u)
    (hadmin : u.is_admin = true) :
    resolveProjectPermissions db uid pid = ProjectCaps.full ∧
    resolveDatasetPermissions db uid did = DatasetCaps.full := by
  constructor
  · unfold resolveProjectPermissions
    rw [hu]
    simp [hadmin]
  · unfold resolveDatasetPermissions
    rw [hu]
    simp [hadmin]

/-- Witness for C2 at a concrete state: user 2 is an admin whose stored
grant rows carry `can_view=false`, yet resolution is full on both
resources. -/
theorem C2_admin_override_witness :
    resolveProjectPermissions exDB1 2 1 = ProjectCaps.full ∧
    resolveDatasetPermissions exDB1 2 1 = DatasetCaps.full :=
  C2_admin_override exDB1 2 1 1 { id := 2, is_admin := true } (by decide) (by decide)

/-- C9: a grant created without explicit capability values takes the source
column defaults: `can_view=true` and every other capability flag false
(including `can_create_project` for datasets). -/
theorem C9_default_grant (db db1 db2 : DB) (uid pid did : Nat) :
    (grantProject db uid pid none = .ok db1 →
      ∃ g, db1.projectPerms = g :: db.projectPerms ∧ g.user_id = uid ∧ g.project_id = pid ∧
        g.can_view = true ∧ g.can_share = false ∧ g.can_modify = false ∧
        g.can_delete = false ∧ g.can_admin = false) ∧
    (grantDataset db uid did none = .ok db2 →
      ∃ g, db2.datasetPerms = g :: db.datasetPerms ∧ g.user_id = uid ∧ g.dataset_id = did ∧
        g.can_view = true ∧ g.can_create_project = false ∧ g.can_share = false ∧
        g.can_modify = false ∧ g.can_delete = false ∧ g.can_admin = false) := by
  constructor
  · intro h
    unfold grantProject at h
    split at h
    · simp at h
    · split at h
      · simp at h
      · split at h
        · simp at h
        · injection h with h
          subst h
          exact ⟨_, rfl, rfl, rfl, rfl, rfl, rfl, rfl, rfl⟩
  · intro h
    unfold grantDataset at h
    split at h
    · simp at h
    · split at h
      · simp at h
      · split at h
        · simp at h
        · injection h with h
          subst h
          exact ⟨_, rfl, rfl, rfl, rfl, rfl, rfl, rfl, rfl, rfl⟩

/-- The state reached by granting user 1 a default grant on project 1 in
`exDB1`. -/
def exDB9p : DB :=
  { exDB1 with projectPerms :=
    { id := 2, user_id := 1, project_id := 1 } :: exDB1.projectPerms }

/-- The state reached by granting user 1 a default grant on dataset 1 in
`exDB1`. -/
def exDB9d : DB :=
  { exDB1 with datasetPerms :=
    { id := 2, dataset_id := 1, user_id := 1 } :: exDB1.datasetPerms }

/-- Witness for C9 at a concrete state. -/
theorem C9_default_grant_witness :
    (∃ g, exDB9p.projectPerms = g :: exDB1.projectPerms ∧ g.user_id = 1 ∧ g.project_id = 1 ∧
      g.can_view = true ∧ g.can_share = false ∧ g.can_modify = false ∧
      g.can_delete = false ∧ g.can_admin = false) ∧
    (∃ g, exDB9d.datasetPerms = g :: exDB1.datasetPerms ∧ g.user_id = 1 ∧ g.dataset_id = 1 ∧
      g.can_view = true ∧ g.can_create_project = false ∧ g.can_share = false ∧
      g.can_modify = false ∧ g.can_delete = false ∧ g.can_admin = false) :=
  ⟨(C9_default_grant exDB1 exDB9p exDB9d 1 1 1).1 rfl,
   (C9_default_grant exDB1 exDB9p exDB9d 1 1 1).2 rfl⟩

/-- Example state: one user, project, dataset, pairing, entity, metadata
key/value, with a grant row (1,1) and a tag (1,1) already present. -/
def exDBA : DB :=
  { users := [{ id := 1 }],
    projects := [{ id := 1, name := "p" }],
    datasets := [{ id := 1 }],
    projectPerms := [{ id := 1, user_id := 1, project_id := 1 }],
    projectDatasets := [{ id := 1, project_id := 1, dataset_id := 1 }],
    entities := [{ id := 1, dataset_id := 1 }],
    metadataKeys := [{ id := 1, name := "k" }],
    metadataRows := [{ id := 1, key_id := 1, value := "v" }],
    entityMetadata := [{ id := 1, entity_id := 1, metadata_id := 1 }] }

/-- C5: inserting a second grant for an existing (user_id, project_id) pair
fails with `DuplicateGrant`, and inserting an existing (entity_id,
metadata_id) pair fails with `DuplicateTag`; both return an error (so no row
is added), never a silent no-op. -/
theorem C5_duplicates_signalled (db : DB) (uid pid eid mid : Nat) (caps : Option ProjectCaps)
    (hu : db.users.any (fun u => u.id == uid) = true)
    (hp : db.projects.any (fun x => x.id == pid) = true)
    (he : db.entities.any (fun e => e.id == eid) = true)
    (hm : db.metadataRows.any (fun m => m.id == mid) = true) :
    ((∃ g ∈ db.projectPerms, g.user_id = uid ∧ g.project_id = pid) →
      grantProject db uid pid caps = .error .DuplicateGrant) ∧
    ((∃ em ∈ db.entityMetadata, em.entity_id = eid ∧ em.metadata_id = mid) →
      insertEntityMetadata db eid mid = .error .DuplicateTag) := by
  constructor
  · intro hdup
    have hany : db.projectPerms.any (fun g => g.user_id == uid && g.project_id == pid)
        = true := by
      obtain ⟨g, hgm, h1, h2⟩ := hdup
      exact List.any_eq_true.mpr ⟨g, hgm, by simp [h1, h2]⟩
    unfold grantProject
    simp [hu, hp, hany]
  · intro hdup
    have hany : db.entityMetadata.any (fun em => em.entity_id == eid && em.metadata_id == mid)
        = true := by
      obtain ⟨em, hemm, h1, h2⟩ := hdup
      exact List.any_eq_true.mpr ⟨em, hemm, by simp [h1, h2]⟩
    unfold insertEntityMetadata
    simp [he, hm, hany]

/-- Witness for C5 at a concrete state holding both pairs already. -/
theorem C5_duplicates_signalled_witness :
    grantProject exDBA 1 1 none = .error .DuplicateGrant ∧
    insertEntityMetadata exDBA 1 1 = .error .DuplicateTag :=
  ⟨(C5_duplicates_signalled exDBA 1 1 1 1 none (by decide) (by decide) (by decide)
      (by decide)).1 (by decide),
   (C5_duplicates_signalled exDBA 1 1 1 1 none (by decide) (by decide) (by decide)
      (by decide)).2 (by decide)⟩

/-- `exDBA` after one `add_filter` on pairing 1, metadata 1, inclusion. -/
def exDBA1 : DB :=
  { exDBA with metadataFilters :=
    [{ id := 1, project_dataset_id := 1, metadata_id := 1, is_exclusion := false }] }

/-- `exDBA` after the identical `add_filter` call a second time: two
distinct rows recording the same predicate. -/
def exDBA2 : DB :=
  { exDBA with metadataFilters :=
    [{ id := 2, project_dataset_id := 1, metadata_id := 1, is_exclusion := false },
     { id := 1, project_dataset_id := 1, metadata_id := 1, is_exclusion := false }] }

/-- C10: `metadata_filters` carries no uniqueness constraint, so the same
`add_filter` call applied twice succeeds both times and leaves two distinct
`MetadataFilter` rows recording the same (project_dataset_id, metadata_id,
is_exclusion) predicate. -/
theorem C10_filter_duplicates_allowed :
    ∃ f1 f2 : MFRow,
      addFilter exDBA 1 1 false = Except.ok exDBA1 ∧
      addFilter exDBA1 1 1 false = Except.ok exDBA2 ∧
      exDBA2.metadataFilters = [f2, f1] ∧
      f1.id ≠ f2.id ∧
      f1.project_dataset_id = 1 ∧ f1.metadata_id = 1 ∧ f1.is_exclusion = false ∧
      f2.project_dataset_id = 1 ∧ f2.metadata_id = 1 ∧ f2.is_exclusion = false := by
  refine ⟨{ id := 1, project_dataset_id := 1, metadata_id := 1 },
          { id := 2, project_dataset_id := 1, metadata_id := 1 },
          rfl, rfl, rfl, by decide, rfl, rfl, rfl, rfl, rfl, rfl⟩

/-- C8 (code): in the source, a row of the `Image` model is its `path` field
alone and a row of the `EntityImage` model is its two foreign keys alone —
neither carries any identifier column, so rows with equal payload are one
and the same, refuting "every entity type carries an id unique within the
type" for these two models. -/
theorem C8_image_rows_carry_no_id :
    (∀ a b : ImageRowSrc, a = b ↔ a.path = b.path) ∧
    (∀ a b : EntityImageRowSrc,
      a = b ↔ (a.entity_id = b.entity_id ∧ a.image_id = b.image_id)) := by
  constructor
  · intro a b
    cases a
    cases b
    simp
  · intro a b
    cases a
    cases b
    simp

/-- C3: deleting a dataset leaves no `Entity` row of that dataset and no
`EntityImage` or `EntityMetadata` row referencing any of its entities, while
the `images` table is untouched, so every `Image` row referenced by an
entity of another dataset remains present. -/
theorem C3_cascade_completeness (db : DB) (did : Nat) :
    (∀ e ∈ (deleteDataset db did).entities, e.dataset_id ≠ did) ∧
    (∀ ei ∈ (deleteDataset db did).entityImages,
      ∀ e ∈ db.entities, e.dataset_id = did → ei.entity_id ≠ e.id) ∧
    (∀ em ∈ (deleteDataset db did).entityMetadata,
      ∀ e ∈ db.entities, e.dataset_id = did → em.entity_id ≠ e.id) ∧
    (∀ img ∈ db.images,
      (∃ ei ∈ db.entityImages, ei.image_id = img.id ∧
        ∃ e ∈ db.entities, e.id = ei.entity_id ∧ e.dataset_id ≠ did) →
      img ∈ (deleteDataset db did).images) := by
  refine ⟨?_, ?_, ?_, ?_⟩
  · intro e he
    have := (List.mem_filter.mp he).2
    simpa using this
  · intro ei hei e he hds
    have hany := (List.mem_filter.mp hei).2
    rw [Bool.not_eq_true'] at hany
    intro heq
    have : (db.entities.filter (fun e => e.dataset_id == did)).any
        (fun x => x.id == ei.entity_id) = true := by
      refine List.any_eq_true.mpr ⟨e, List.mem_filter.mpr ⟨he, by simp [hds]⟩, by simp [heq]⟩
    rw [this] at hany
    cases hany
  · intro em hem e he hds
    have hany := (List.mem_filter.mp hem).2
    rw [Bool.not_eq_true'] at hany
    intro heq
    have : (db.entities.filter (fun e => e.dataset_id == did)).any
        (fun x => x.id == em.entity_id) = true := by
      refine List.any_eq_true.mpr ⟨e, List.mem_filter.mpr ⟨he, by simp [hds]⟩, by simp [heq]⟩
    rw [this] at hany
    cases hany
  · intro img him _
    exact him

/-- Example state for the cascade claims: dataset 1 owns entity 1 (tagged,
with image 1); dataset 2 owns entity 2, which shares image 1. -/
def exDB3 : DB :=
  { datasets := [{ id := 1 }, { id := 2 }],
    entities := [{ id := 1, dataset_id := 1 }, { id := 2, dataset_id := 2 }],
    metadataKeys := [{ id := 1, name := "k" }],
    metadataRows := [{ id := 1, key_id := 1, value := "v" }],
    entityMetadata := [{ id := 1, entity_id := 1, metadata_id := 1 }],
    images := [{ id := 1, path := "shared.png" }],
    entityImages := [{ entity_id := 1, image_id := 1 }, { entity_id := 2, image_id := 1 }] }

/-- Witness for C3 at a concrete state: after deleting dataset 1, the image
shared with dataset 2's entity survives. -/
theorem C3_cascade_completeness_witness :
    ({ id := 1, path := "shared.png" } : ImageRow) ∈ (deleteDataset exDB3 1).images :=
  (C3_cascade_completeness exDB3 1).2.2.2 { id := 1, path := "shared.png" }
    (by decide) (by decide)

/-- C4: attaching the same path to two distinct entities (in a state where
the path is new and every `EntityImage` row references an existing image)
creates exactly one `Image` row with that path and exactly two `EntityImage`
rows — one per entity — referencing that single row. -/
theorem C4_image_dedup (db : DB) (e1 e2 : Nat) (p : String)
    (hne : e1 ≠ e2)
    (he1 : db.entities.any (fun e => e.id == e1) = true)
    (he2 : db.entities.any (fun e => e.id == e2) = true)
    (hp : ∀ img ∈ db.images, img.path ≠ p)
    (hwf : ∀ ei ∈ db.entityImages, ∃ img ∈ db.images, img.id = ei.image_id) :
    ∃ db1 db2 iid,
      attachImage db e1 p = .ok db1 ∧
      attachImage db1 e2 p = .ok db2 ∧
      db2.images.countP (fun img => img.path == p) = 1 ∧
      (∃ img ∈ db2.images, img.path = p ∧ img.id = iid) ∧
      db2.entityImages.countP (fun ei => ei.image_id == iid) = 2 ∧
      (∃ ei ∈ db2.entityImages, ei.entity_id = e1 ∧ ei.image_id = iid) ∧
      (∃ ei ∈ db2.entityImages, ei.entity_id = e2 ∧ ei.image_id = iid) ∧
      (∀ ei ∈ db2.entityImages, ei.image_id = iid → ei.entity_id = e1 ∨ ei.entity_id = e2) := by
  have hfind : db.images.find? (fun img => img.path == p) = none := by
    rw [List.find?_eq_none]
    intro img him
    simpa using hp img him
  have hfresh : ∀ img ∈ db.images, img.id ≠ freshId (db.images.map ImageRow.id) :=
    proj_ne_freshId ImageRow.id db.images
  refine ⟨{ db with
      images := { id := freshId (db.images.map ImageRow.id), path := p } :: db.images,
      entityImages :=
        { entity_id := e1, image_id := freshId (db.images.map ImageRow.id) }
          :: db.entityImages },
    { db with
      images := { id := freshId (db.images.map ImageRow.id), path := p } :: db.images,
      entityImages :=
        { entity_id := e2, image_id := freshId (db.images.map ImageRow.id) }
          :: { entity_id := e1, image_id := freshId (db.images.map ImageRow.id) }
          :: db.entityImages },
    freshId (db.images.map ImageRow.id), ?_, ?_, ?_, ?_, ?_, ?_, ?_, ?_⟩
  · unfold attachImage
    simp [he1, hfind]
  · unfold attachImage
    have hfind2 :
        ({ id := freshId (db.images.map ImageRow.id), path := p } :: db.images).find?
          (fun img => img.path == p)
        = some { id := freshId (db.images.map ImageRow.id), path := p } :=
      List.find?_cons_of_pos _ (by simp)
    have hany :
        (({ entity_id := e1, image_id := freshId (db.images.map ImageRow.id) } : EIRow)
            :: db.entityImages).any
          (fun ei => ei.entity_id == e2 &&
            ei.image_id == freshId (db.images.map ImageRow.id)) = false := by
      rw [List.any_eq_false]
      intro ei hei
      rcases List.mem_cons.mp hei with h | h
      · subst h
        simp [hne]
      · obtain ⟨img, him, hid⟩ := hwf ei h
        simp only [Bool.and_eq_true, beq_iff_eq, not_and]
        intro _
        rw [← hid]
        exact hfresh img him
    simp [he2, hfind2, hany]
  · have h0 : List.countP (fun img => img.path == p) db.images = 0 := by
      rw [List.countP_eq_zero]
      intro img him
      simpa using hp img him
    dsimp only
    rw [List.countP_cons, h0]
    simp
  · exact ⟨_, List.mem_cons_self _ _, rfl, rfl⟩
  · have h0 : List.countP (fun ei => ei.image_id == freshId (db.images.map ImageRow.id))
        db.entityImages = 0 := by
      rw [List.countP_eq_zero]
      intro ei hei
      obtain ⟨img, him, hid⟩ := hwf ei hei
      simp only [beq_iff_eq]
      rw [← hid]
      exact hfresh img him
    dsimp only
    rw [List.countP_cons, List.countP_cons, h0]
    simp
  · exact ⟨_, List.mem_cons_of_mem _ (List.mem_cons_self _ _), rfl, rfl⟩
  · exact ⟨_, List.mem_cons_self _ _, rfl, rfl⟩
  · intro ei hei hid
    rcases List.mem_cons.mp hei with h | h
    · subst h; right; rfl
    · rcases List.mem_cons.mp h with h2 | h2
      · subst h2; left; rfl
      · obtain ⟨img, him, hid2⟩ := hwf ei h2
        exact absurd (hid2.trans hid) (hfresh img him)

/-- Example state for the dedup claim: two entities in one dataset, no
images yet. -/
def exDB4 : DB :=
  { datasets := [{ id := 1 }],
    entities := [{ id := 1, dataset_id := 1 }, { id := 2, dataset_id := 1 }] }

/-- Witness for C4 at a concrete state. -/
theorem C4_image_dedup_witness :
    ∃ db1 db2 iid,
      attachImage exDB4 1 "a.png" = .ok db1 ∧
      attachImage db1 2 "a.png" = .ok db2 ∧
      db2.images.countP (fun img => img.path == "a.png") = 1 ∧
      (∃ img ∈ db2.images, img.path = "a.png" ∧ img.id = iid) ∧
      db2.entityImages.countP (fun ei => ei.image_id == iid) = 2 ∧
      (∃ ei ∈ db2.entityImages, ei.entity_id = 1 ∧ ei.image_id = iid) ∧
      (∃ ei ∈ db2.entityImages, ei.entity_id = 2 ∧ ei.image_id = iid) ∧
      (∀ ei ∈ db2.entityImages, ei.image_id = iid → ei.entity_id = 1 ∨ ei.entity_id = 2) :=
  C4_image_dedup exDB4 1 2 "a.png" (by decide) (by decide) (by decide)
    (by decide) (by decide)

lemma entityHasMetadata_iff (db : DB) (eid mid : Nat) :
    entityHasMetadata db eid mid = true ↔
      ∃ em ∈ db.entityMetadata, em.entity_id = eid ∧ em.metadata_id = mid := by
  unfold entityHasMetadata
  rw [List.any_eq_true]
  simp

lemma passesFilter_iff (db : DB) (eid : Nat) (f : MFRow) :
    passesFilter db eid f = true ↔
      (if f.is_exclusion = true
       then ¬ ∃ em ∈ db.entityMetadata, em.entity_id = eid ∧ em.metadata_id = f.metadata_id
       else ∃ em ∈ db.entityMetadata, em.entity_id = eid ∧ em.metadata_id = f.metadata_id) := by
  unfold passesFilter
  cases hf : f.is_exclusion with
  | false => simp [entityHasMetadata_iff]
  | true => simp [← entityHasMetadata_iff]

lemma entity_id_inj (db : DB) (hids : db.entities.Pairwise (fun a b => a.id ≠ b.id))
    (e1 e2 : EntityRow) (h1 : e1 ∈ db.entities) (h2 : e2 ∈ db.entities)
    (h : e1.id = e2.id) : e1 = e2 := by
  by_contra hne
  exact absurd h (List.Pairwise.forall (fun a b hab => Ne.symm hab) hids h1 h2 hne)

/-- C6: for a `ProjectDataset` pairing, `working_set` contains precisely the
ids of the paired dataset's entities that satisfy every attached filter
(inclusion iff the exact `EntityMetadata` association exists, exclusion iff
it does not, composed by logical AND); nothing outside that dataset
appears; and with zero filters attached it is the dataset's full entity
list. -/
theorem C6_working_set (db : DB) (pdid : Nat) (pd : PDRow)
    (hpd : db.projectDatasets.find? (fun x => x.id == pdid) = some pd)
    (hids : db.entities.Pairwise (fun a b => a.id ≠ b.id)) :
    (∀ e ∈ db.entities, e.dataset_id = pd.dataset_id →
      (e.id ∈ workingSet db pdid ↔
        ∀ f ∈ db.metadataFilters, f.project_dataset_id = pdid →
          (if f.is_exclusion = true
           then ¬ ∃ em ∈ db.entityMetadata,
             em.entity_id = e.id ∧ em.metadata_id = f.metadata_id
           else ∃ em ∈ db.entityMetadata,
             em.entity_id = e.id ∧ em.metadata_id = f.metadata_id))) ∧
    (∀ i ∈ workingSet db pdid,
      ∃ e ∈ db.entities, e.id = i ∧ e.dataset_id = pd.dataset_id) ∧
    ((∀ f ∈ db.metadataFilters, f.project_dataset_id ≠ pdid) →
      workingSet db pdid =
        (db.entities.filter (fun e => e.dataset_id == pd.dataset_id)).map EntityRow.id) := by
  refine ⟨?_, ?_, ?_⟩
  · intro e he hds
    unfold workingSet
    rw [hpd]
    constructor
    · intro hmem
      obtain ⟨e2, he2, hid⟩ := List.mem_map.mp hmem
      have he2f := List.mem_filter.mp he2
      have he2d := List.mem_filter.mp he2f.1
      have heq : e2 = e := entity_id_inj db hids e2 e he2d.1 he hid
      subst heq
      intro f hf hproj
      have hfin : f ∈ filtersFor db pdid := by
        unfold filtersFor
        exact List.mem_filter.mpr ⟨hf, by simp [hproj]⟩
      have := List.all_eq_true.mp he2f.2 f hfin
      exact (passesFilter_iff db e2.id f).mp this
    · intro hall
      refine List.mem_map.mpr ⟨e, List.mem_filter.mpr ⟨List.mem_filter.mpr ⟨he, by simp [hds]⟩, ?_⟩, rfl⟩
      rw [List.all_eq_true]
      intro f hfin
      have hff := List.mem_filter.mp hfin
      have hproj : f.project_dataset_id = pdid := by simpa using hff.2
      exact (passesFilter_iff db e.id f).mpr (hall f hff.1 hproj)
  · intro i hi
    unfold workingSet at hi
    rw [hpd] at hi
    obtain ⟨e2, he2, hid⟩ := List.mem_map.mp hi
    have he2f := List.mem_filter.mp he2
    have he2d := List.mem_filter.mp he2f.1
    exact ⟨e2, he2d.1, hid, by simpa using he2d.2⟩
  · intro hnone
    have hnil : filtersFor db pdid = [] := by
      unfold filtersFor
      rw [List.filter_eq_nil_iff]
      intro f hf
      simpa using hnone f hf
    unfold workingSet
    rw [hpd, hnil]
    simp

/-- Example state for the filter claims: pairing 1 pairs dataset 1 (entity 1
tagged with metadata 1, entity 2 untagged) and carries one inclusion filter
on metadata 1. -/
def exDB6 : DB :=
  { projects := [{ id := 1, name := "p" }],
    datasets := [{ id := 1 }],
    projectDatasets := [{ id := 1, project_id := 1, dataset_id := 1 }],
    entities := [{ id := 1, dataset_id := 1 }, { id := 2, dataset_id := 1 }],
    metadataKeys := [{ id := 1, name := "k" }],
    metadataRows := [{ id := 1, key_id := 1, value := "v" }],
    entityMetadata := [{ id := 1, entity_id := 1, metadata_id := 1 }],
    metadataFilters := [{ id := 1, project_dataset_id := 1, metadata_id := 1 }] }

/-- Witness for C6 at a concrete state: the tagged entity is in the working
set of the pairing with an inclusion filter. -/
theorem C6_working_set_witness : 1 ∈ workingSet exDB6 1 :=
  ((C6_working_set exDB6 1 { id := 1, project_id := 1, dataset_id := 1 }
      (by decide) (by decide)).1
    { id := 1, dataset_id := 1 } (by decide) rfl).mpr (by decide)

lemma wf_createUser (db : DB) (h : wfJoins db) : wfJoins (createUser db) := by
  obtain ⟨h1, h2, h3, h4, h5⟩ := h
  unfold createUser
  refine ⟨?_, ?_, h3, h4, h5⟩
  · intro g hg
    exact ⟨existsId_cons _ _ _ _ (h1 g hg).1, (h1 g hg).2⟩
  · intro g hg
    exact ⟨existsId_cons _ _ _ _ (h2 g hg).1, (h2 g hg).2⟩

lemma wf_updateUserFlags (db : DB) (uid : Nat) (a b : Bool) (h : wfJoins db) :
    wfJoins (updateUserFlags db uid a b) := by
  obtain ⟨h1, h2, h3, h4, h5⟩ := h
  unfold updateUserFlags
  have hpres : ∀ u : UserRow,
      UserRow.id (if u.id == uid then { u with is_active := a, is_admin := b } else u)
        = UserRow.id u := by
    intro u
    split <;> rfl
  refine ⟨?_, ?_, h3, h4, h5⟩
  · intro g hg
    exact ⟨existsId_map_preserve _ _ _ _ hpres (h1 g hg).1, (h1 g hg).2⟩
  · intro g hg
    exact ⟨existsId_map_preserve _ _ _ _ hpres (h2 g hg).1, (h2 g hg).2⟩

lemma wf_createProject (db : DB) (name : String) (h : wfJoins db) :
    wfJoins (createProject db name) := by
  obtain ⟨h1, h2, h3, h4, h5⟩ := h
  unfold createProject
  refine ⟨?_, h2, ?_, h4, h5⟩
  · intro g hg
    exact ⟨(h1 g hg).1, existsId_cons _ _ _ _ (h1 g hg).2⟩
  · intro pd hpd
    exact ⟨existsId_cons _ _ _ _ (h3 pd hpd).1, (h3 pd hpd).2⟩

lemma wf_createDataset (db : DB) (name : String) (h : wfJoins db) :
    wfJoins (createDataset db name) := by
  obtain ⟨h1, h2, h3, h4, h5⟩ := h
  unfold createDataset
  refine ⟨h1, ?_, ?_, h4, h5⟩
  · intro g hg
    exact ⟨(h2 g hg).1, existsId_cons _ _ _ _ (h2 g hg).2⟩
  · intro pd hpd
    exact ⟨(h3 pd hpd).1, existsId_cons _ _ _ _ (h3 pd hpd).2⟩

lemma wf_grantProject (db : DB) (uid pid : Nat) (caps : Option ProjectCaps) (db2 : DB)
    (h : grantProject db uid pid caps = .ok db2) (hwf : wfJoins db) : wfJoins db2 := by
  obtain ⟨h1, h2, h3, h4, h5⟩ := hwf
  unfold grantProject at h
  split at h
  · simp at h
  · split at h
    · simp at h
    · split at h
      · simp at h
      · rename_i hu hp _
        rw [Bool.not_eq_true, Bool.not_eq_false'] at hu hp
        dsimp only at h
        injection h with h
        subst h
        refine ⟨?_, h2, h3, h4, h5⟩
        intro g hg
        rcases List.mem_cons.mp hg with hgh | hgt
        · subst hgh
          obtain ⟨u, humem, hub⟩ := List.any_eq_true.mp hu
          obtain ⟨q, hqmem, hqb⟩ := List.any_eq_true.mp hp
          cases caps with
          | none =>
            exact ⟨⟨u, humem, by simpa using hub⟩, ⟨q, hqmem, by simpa using hqb⟩⟩
          | some c =>
            exact ⟨⟨u, humem, by simpa using hub⟩, ⟨q, hqmem, by simpa using hqb⟩⟩
        · exact h1 g hgt

lemma wf_grantDataset (db : DB) (uid did : Nat) (caps : Option DatasetCaps) (db2 : DB)
    (h : grantDataset db uid did caps = .ok db2) (hwf : wfJoins db) : wfJoins db2 := by
  obtain ⟨h1, h2, h3, h4, h5⟩ := hwf
  unfold grantDataset at h
  split at h
  · simp at h
  · split at h
    · simp at h
    · split at h
      · simp at h
      · rename_i hu hd _
        rw [Bool.not_eq_true, Bool.not_eq_false'] at hu hd
        dsimp only at h
        injection h with h
        subst h
        refine ⟨h1, ?_, h3, h4, h5⟩
        intro g hg
        rcases List.mem_cons.mp hg with hgh | hgt
        · subst hgh
          obtain ⟨u, humem, hub⟩ := List.any_eq_true.mp hu
          obtain ⟨q, hqmem, hqb⟩ := List.any_eq_true.mp hd
          cases caps with
          | none =>
            exact ⟨⟨u, humem, by simpa using hub⟩, ⟨q, hqmem, by simpa using hqb⟩⟩
          | some c =>
            exact ⟨⟨u, humem, by simpa using hub⟩, ⟨q, hqmem, by simpa using hqb⟩⟩
        · exact h2 g hgt

lemma wf_attachDataset (db : DB) (pid did : Nat) (db2 : DB)
    (h : attachDataset db pid did = .ok db2) (hwf : wfJoins db) : wfJoins db2 := by
  obtain ⟨h1, h2, h3, h4, h5⟩ := hwf
  unfold attachDataset at h
  split at h
  · simp at h
  · split at h
    · simp at h
    · split at h
      · simp at h
      · rename_i hp hd _
        rw [Bool.not_eq_true, Bool.not_eq_false'] at hp hd
        injection h with h
        subst h
        refine ⟨h1, h2, ?_, h4, h5⟩
        intro pd hpd
        rcases List.mem_cons.mp hpd with hh | ht
        · subst hh
          obtain ⟨q, hqmem, hqb⟩ := List.any_eq_true.mp hp
          obtain ⟨d, hdmem, hdb⟩ := List.any_eq_true.mp hd
          exact ⟨⟨q, hqmem, by simpa using hqb⟩, ⟨d, hdmem, by simpa using hdb⟩⟩
        · exact h3 pd ht

lemma wf_createEntity (db : DB) (did : Nat) (db2 : DB)
    (h : createEntity db did = .ok db2) (hwf : wfJoins db) : wfJoins db2 := by
  obtain ⟨h1, h2, h3, h4, h5⟩ := hwf
  unfold createEntity at h
  split at h
  · simp at h
  · injection h with h
    subst h
    refine ⟨h1, h2, h3, ?_, ?_⟩
    · intro ei hei
      exact ⟨existsId_cons _ _ _ _ (h4 ei hei).1, (h4 ei hei).2⟩
    · intro em hem
      exact ⟨existsId_cons _ _ _ _ (h5 em hem).1, (h5 em hem).2⟩

lemma wf_attachImage (db : DB) (eid : Nat) (path : String) (db2 : DB)
    (h : attachImage db eid path = .ok db2) (hwf : wfJoins db) : wfJoins db2 := by
  obtain ⟨h1, h2, h3, h4, h5⟩ := hwf
  unfold attachImage at h
  split at h
  · simp at h
  · rename_i he
    rw [Bool.not_eq_true, Bool.not_eq_false'] at he
    obtain ⟨e, hemem, heb⟩ := List.any_eq_true.mp he
    split at h
    · rename_i img hfind
      split at h
      · simp at h
      · injection h with h
        subst h
        refine ⟨h1, h2, h3, ?_, h5⟩
        intro ei hei
        rcases List.mem_cons.mp hei with hh | ht
        · subst hh
          exact ⟨⟨e, hemem, by simpa using heb⟩,
                 ⟨img, List.mem_of_find?_eq_some hfind, rfl⟩⟩
        · exact h4 ei ht
    · injection h with h
      subst h
      refine ⟨h1, h2, h3, ?_, h5⟩
      intro ei hei
      rcases List.mem_cons.mp hei with hh | ht
      · subst hh
        exact ⟨⟨e, hemem, by simpa using heb⟩,
               ⟨_, List.mem_cons_self _ _, rfl⟩⟩
      · exact ⟨(h4 ei ht).1, existsId_cons _ _ _ _ (h4 ei ht).2⟩

lemma wf_insertEntityMetadata (db : DB) (eid mid : Nat) (db2 : DB)
    (h : insertEntityMetadata db eid mid = .ok db2) (hwf : wfJoins db) : wfJoins db2 := by
  obtain ⟨h1, h2, h3, h4, h5⟩ := hwf
  unfold insertEntityMetadata at h
  split at h
  · simp at h
  · split at h
    · simp at h
    · split at h
      · simp at h
      · rename_i he hm _
        rw [Bool.not_eq_true, Bool.not_eq_false'] at he hm
        injection h with h
        subst h
        refine ⟨h1, h2, h3, h4, ?_⟩
        intro em hem
        rcases List.mem_cons.mp hem with hh | ht
        · subst hh
          obtain ⟨e, hemem, heb⟩ := List.any_eq_true.mp he
          obtain ⟨m, hmmem, hmb⟩ := List.any_eq_true.mp hm
          exact ⟨⟨e, hemem, by simpa using heb⟩, ⟨m, hmmem, by simpa using hmb⟩⟩
        · exact h5 em ht

lemma wf_resolveKey (db : DB) (key : String) (hwf : wfJoins db) :
    wfJoins (resolveKey db key).1 := by
  obtain ⟨h1, h2, h3, h4, h5⟩ := hwf
  unfold resolveKey
  split
  · exact ⟨h1, h2, h3, h4, h5⟩
  · exact ⟨h1, h2, h3, h4, h5⟩

lemma wf_resolveMetadata (db : DB) (kid : Nat) (value : String) (hwf : wfJoins db) :
    wfJoins (resolveMetadata db kid value).1 := by
  obtain ⟨h1, h2, h3, h4, h5⟩ := hwf
  unfold resolveMetadata
  split
  · exact ⟨h1, h2, h3, h4, h5⟩
  · refine ⟨h1, h2, h3, h4, ?_⟩
    intro em hem
    exact ⟨(h5 em hem).1, existsId_cons _ _ _ _ (h5 em hem).2⟩

lemma wf_tagEntity (db : DB) (eid : Nat) (key value : String) (db2 : DB)
    (h : tagEntity db eid key value = .ok db2) (hwf : wfJoins db) : wfJoins db2 := by
  unfold tagEntity at h
  split at h
  · simp at h
  · exact wf_insertEntityMetadata _ _ _ _ h
      (wf_resolveMetadata _ _ _ (wf_resolveKey _ _ hwf))

lemma wf_addFilter (db : DB) (pdid mid : Nat) (x : Bool) (db2 : DB)
    (h : addFilter db pdid mid x = .ok db2) (hwf : wfJoins db) : wfJoins db2 := by
  obtain ⟨h1, h2, h3, h4, h5⟩ := hwf
  unfold addFilter at h
  split at h
  · simp at h
  · split at h
    · simp at h
    · injection h with h
      subst h
      exact ⟨h1, h2, h3, h4, h5⟩

lemma wf_detachDataset (db : DB) (pid did : Nat) (hwf : wfJoins db) :
    wfJoins (detachDataset db pid did) := by
  obtain ⟨h1, h2, h3, h4, h5⟩ := hwf
  unfold detachDataset
  refine ⟨h1, h2, ?_, h4, h5⟩
  intro pd hpd
  exact h3 pd (List.mem_filter.mp hpd).1

lemma not_bang_eq_true {b : Bool} (h : (!b) = true) : b = false := by
  cases b
  · rfl
  · cases h

lemma wf_deleteUser (db : DB) (uid : Nat) (hwf : wfJoins db) :
    wfJoins (deleteUser db uid) := by
  obtain ⟨h1, h2, h3, h4, h5⟩ := hwf
  unfold deleteUser
  refine ⟨?_, ?_, h3, h4, h5⟩
  · intro g hg
    have hgm := List.mem_filter.mp hg
    have hne := not_bang_eq_true hgm.2
    refine ⟨existsId_filter _ _ _ _ (h1 g hgm.1).1 ?_, (h1 g hgm.1).2⟩
    intro u hu hid
    rw [Bool.not_eq_true', hid]
    exact hne
  · intro g hg
    have hgm := List.mem_filter.mp hg
    have hne := not_bang_eq_true hgm.2
    refine ⟨existsId_filter _ _ _ _ (h2 g hgm.1).1 ?_, (h2 g hgm.1).2⟩
    intro u hu hid
    rw [Bool.not_eq_true', hid]
    exact hne

lemma wf_deleteProject (db : DB) (pid : Nat) (hwf : wfJoins db) :
    wfJoins (deleteProject db pid) := by
  obtain ⟨h1, h2, h3, h4, h5⟩ := hwf
  unfold deleteProject
  refine ⟨?_, h2, ?_, h4, h5⟩
  · intro g hg
    have hgm := List.mem_filter.mp hg
    have hne := not_bang_eq_true hgm.2
    refine ⟨(h1 g hgm.1).1, existsId_filter _ _ _ _ (h1 g hgm.1).2 ?_⟩
    intro q hq hid
    rw [Bool.not_eq_true', hid]
    exact hne
  · intro pd hpd
    have hm := List.mem_filter.mp hpd
    have hne := not_bang_eq_true hm.2
    refine ⟨existsId_filter _ _ _ _ (h3 pd hm.1).1 ?_, (h3 pd hm.1).2⟩
    intro q hq hid
    rw [Bool.not_eq_true', hid]
    exact hne

lemma wf_deleteDataset (db : DB) (did : Nat) (hwf : wfJoins db) :
    wfJoins (deleteDataset db did) := by
  obtain ⟨h1, h2, h3, h4, h5⟩ := hwf
  unfold deleteDataset
  refine ⟨h1, ?_, ?_, ?_, ?_⟩
  · intro g hg
    have hgm := List.mem_filter.mp hg
    have hne := not_bang_eq_true hgm.2
    refine ⟨(h2 g hgm.1).1, existsId_filter _ _ _ _ (h2 g hgm.1).2 ?_⟩
    intro d hd hid
    rw [Bool.not_eq_true', hid]
    exact hne
  · intro pd hpd
    have hm := List.mem_filter.mp hpd
    have hne := not_bang_eq_true hm.2
    refine ⟨(h3 pd hm.1).1, existsId_filter _ _ _ _ (h3 pd hm.1).2 ?_⟩
    intro d hd hid
    rw [Bool.not_eq_true', hid]
    exact hne
  · intro ei hei
    have hm := List.mem_filter.mp hei
    have hany := not_bang_eq_true hm.2
    refine ⟨existsId_filter _ _ _ _ (h4 ei hm.1).1 ?_, (h4 ei hm.1).2⟩
    exact survivor_of_any_eq_false EntityRow.id (fun e => e.dataset_id == did)
      db.entities ei.entity_id hany
  · intro em hem
    have hm := List.mem_filter.mp hem
    have hany := not_bang_eq_true hm.2
    refine ⟨existsId_filter _ _ _ _ (h5 em hm.1).1 ?_, (h5 em hm.1).2⟩
    exact survivor_of_any_eq_false EntityRow.id (fun e => e.dataset_id == did)
      db.entities em.entity_id hany

lemma wf_deleteEntity (db : DB) (eid : Nat) (hwf : wfJoins db) :
    wfJoins (deleteEntity db eid) := by
  obtain ⟨h1, h2, h3, h4, h5⟩ := hwf
  unfold deleteEntity
  refine ⟨h1, h2, h3, ?_, ?_⟩
  · intro ei hei
    have hm := List.mem_filter.mp hei
    have hne := not_bang_eq_true hm.2
    refine ⟨existsId_filter _ _ _ _ (h4 ei hm.1).1 ?_, (h4 ei hm.1).2⟩
    intro e he hid
    rw [Bool.not_eq_true', hid]
    exact hne
  · intro em hem
    have hm := List.mem_filter.mp hem
    have hne := not_bang_eq_true hm.2
    refine ⟨existsId_filter _ _ _ _ (h5 em hm.1).1 ?_, (h5 em hm.1).2⟩
    intro e he hid
    rw [Bool.not_eq_true', hid]
    exact hne

lemma wf_deleteMetadata (db : DB) (mid : Nat) (hwf : wfJoins db) :
    wfJoins (deleteMetadata db mid) := by
  obtain ⟨h1, h2, h3, h4, h5⟩ := hwf
  unfold deleteMetadata
  refine ⟨h1, h2, h3, h4, ?_⟩
  intro em hem
  have hm := List.mem_filter.mp hem
  have hne := not_bang_eq_true hm.2
  refine ⟨(h5 em hm.1).1, existsId_filter _ _ _ _ (h5 em hm.1).2 ?_⟩
  intro m hmm hid
  rw [Bool.not_eq_true', hid]
  exact hne

lemma wf_deleteMetadataKey (db : DB) (kid : Nat) (hwf : wfJoins db) :
    wfJoins (deleteMetadataKey db kid) := by
  obtain ⟨h1, h2, h3, h4, h5⟩ := hwf
  unfold deleteMetadataKey
  refine ⟨h1, h2, h3, h4, ?_⟩
  intro em hem
  have hm := List.mem_filter.mp hem
  have hany := not_bang_eq_true hm.2
  refine ⟨(h5 em hm.1).1, existsId_filter _ _ _ _ (h5 em hm.1).2 ?_⟩
  exact survivor_of_any_eq_false MetadataRow.id (fun m => m.key_id == kid)
    db.metadataRows em.metadata_id hany

lemma wf_deleteImage (db : DB) (iid : Nat) (hwf : wfJoins db) :
    wfJoins (deleteImage db iid) := by
  obtain ⟨h1, h2, h3, h4, h5⟩ := hwf
  unfold deleteImage
  refine ⟨h1, h2, h3, ?_, h5⟩
  intro ei hei
  have hm := List.mem_filter.mp hei
  have hne := not_bang_eq_true hm.2
  refine ⟨(h4 ei hm.1).1, existsId_filter _ _ _ _ (h4 ei hm.1).2 ?_⟩
  intro img him hid
  rw [Bool.not_eq_true', hid]
  exact hne

lemma wfJoins_step (db db2 : DB) (hs : DBStep db db2) (hwf : wfJoins db) : wfJoins db2 := by
  cases hs with
  | create_user => exact wf_createUser db hwf
  | update_user_flags uid a b => exact wf_updateUserFlags db uid a b hwf
  | create_project name => exact wf_createProject db name hwf
  | create_dataset name => exact wf_createDataset db name hwf
  | grant_project uid pid caps d h => exact wf_grantProject db uid pid caps db2 h hwf
  | grant_dataset uid did caps d h => exact wf_grantDataset db uid did caps db2 h hwf
  | attach_dataset pid did d h => exact wf_attachDataset db pid did db2 h hwf
  | detach_dataset pid did => exact wf_detachDataset db pid did hwf
  | create_entity did d h => exact wf_createEntity db did db2 h hwf
  | attach_image eid path d h => exact wf_attachImage db eid path db2 h hwf
  | tag_entity eid key value d h => exact wf_tagEntity db eid key value db2 h hwf
  | add_filter pdid mid x d h => exact wf_addFilter db pdid mid x db2 h hwf
  | delete_user uid => exact wf_deleteUser db uid hwf
  | delete_project pid => exact wf_deleteProject db pid hwf
  | delete_dataset did => exact wf_deleteDataset db did hwf
  | delete_entity eid => exact wf_deleteEntity db eid hwf
  | delete_metadata mid => exact wf_deleteMetadata db mid hwf
  | delete_metadata_key kid => exact wf_deleteMetadataKey db kid hwf
  | delete_image iid => exact wf_deleteImage db iid hwf

lemma wfJoins_empty : wfJoins emptyDB := by
  refine ⟨?_, ?_, ?_, ?_, ?_⟩ <;> intro r hr <;> cases hr

/-- C7: in every reachable state, every row of the five join tables
(`ProjectUserPermissions`, `DatasetUserPermissions`, `ProjectDataset`,
`EntityImage`, `EntityMetadata`) has both its endpoint rows present
(`wfJoins`), and deleting either endpoint deterministically removes the
join rows referencing it — no join row outlives either endpoint. -/
theorem C7_join_lifecycle (db : DB) (h : DBReachable db) :
    wfJoins db ∧
    (∀ uid, ∀ g ∈ (deleteUser db uid).projectPerms, g.user_id ≠ uid) ∧
    (∀ uid, ∀ g ∈ (deleteUser db uid).datasetPerms, g.user_id ≠ uid) ∧
    (∀ pid, ∀ g ∈ (deleteProject db pid).projectPerms, g.project_id ≠ pid) ∧
    (∀ pid, ∀ pd ∈ (deleteProject db pid).projectDatasets, pd.project_id ≠ pid) ∧
    (∀ did, ∀ g ∈ (deleteDataset db did).datasetPerms, g.dataset_id ≠ did) ∧
    (∀ did, ∀ pd ∈ (deleteDataset db did).projectDatasets, pd.dataset_id ≠ did) ∧
    (∀ eid, ∀ ei ∈ (deleteEntity db eid).entityImages, ei.entity_id ≠ eid) ∧
    (∀ eid, ∀ em ∈ (deleteEntity db eid).entityMetadata, em.entity_id ≠ eid) ∧
    (∀ mid, ∀ em ∈ (deleteMetadata db mid).entityMetadata, em.metadata_id ≠ mid) ∧
    (∀ iid, ∀ ei ∈ (deleteImage db iid).entityImages, ei.image_id ≠ iid) := by
  have hwf : wfJoins db := by
    induction h with
    | empty => exact wfJoins_empty
    | step hr hs ih => exact wfJoins_step _ _ hs ih
  refine ⟨hwf, ?_, ?_, ?_, ?_, ?_, ?_, ?_, ?_, ?_, ?_⟩ <;>
    intro x r hr <;> simpa using (List.mem_filter.mp hr).2

/-- Witness for C7: a concrete reachable state satisfies the join
invariant. -/
theorem C7_join_lifecycle_witness : wfJoins (createUser emptyDB) :=
  (C7_join_lifecycle (createUser emptyDB)
    (DBReachable.step DBReachable.empty (DBStep.create_user emptyDB))).1
